import Mathlib

/-!
Verification development for the `oai-ran-ue-k8s-operator` charm.

The definitions below are a shallow embedding of the Python sources:
`src/charm.py`, `src/charm_config.py`, `src/k8s.py` and
`lib/charms/oai_ran_du_k8s/v0/fiveg_rfsim.py`.  Python integers are
modelled as `Int`/`Nat`, Python strings as `String`, `None`-able values
as `Option`, raising operations as `Except`.  Helper functions named
`py*` model the semantics of the Python builtins used by the sources
(`int(str)`, `str(int)`, `hex`, `str.rstrip`, truthiness).
-/

/-! ## Python builtin semantics -/

/-- ASCII decimal digit test, as used by `int(str)` parsing. -/
def isDigitChar (c : Char) : Bool :=
  48 ≤ c.toNat && c.toNat ≤ 57

/-- Whitespace stripped by Python's `int(str)` and `str.strip` (ASCII subset). -/
def isWsChar (c : Char) : Bool :=
  c == ' ' || c == '\t' || c == '\n' || c == '\r'

/-- Strip leading and trailing whitespace from a character list. -/
def trimChars (cs : List Char) : List Char :=
  ((cs.dropWhile isWsChar).reverse.dropWhile isWsChar).reverse

/-- Whether a digit run may continue after an underscore: the next character
must be a digit (CPython's grouping rule). -/
def pyUnderscoreOk : List Char → Bool
  | [] => false
  | r :: _ => isDigitChar r

/-- Digit-run parser for Python `int(str)`: a run of ASCII digits where a
single underscore may separate two digits (CPython's grouping rule). -/
def pyDigitsLoop : List Char → Nat → Option Nat
  | [], acc => some acc
  | c :: rest, acc =>
    if isDigitChar c then pyDigitsLoop rest (acc * 10 + (c.toNat - 48))
    else if c = '_' then (if pyUnderscoreOk rest then pyDigitsLoop rest acc else none)
    else none

/-- Parse a digit run that must start with a digit. -/
def pyParseDigits (cs : List Char) : Option Nat :=
  match cs with
  | [] => none
  | c :: _ => if isDigitChar c then pyDigitsLoop cs 0 else none

/-- Sign handling of Python `int(s)` after whitespace stripping. -/
def pyParseSigned : List Char → Option Int
  | [] => none
  | c :: rest =>
    if c = '+' then (pyParseDigits rest).map (fun m => (m : Int))
    else if c = '-' then (pyParseDigits rest).map (fun m => -(m : Int))
    else (pyParseDigits (c :: rest)).map (fun m => (m : Int))

/-- Python `int(s)` for a decimal string: strips whitespace, accepts one
optional sign, then a digit run. Returns `none` where CPython raises
`ValueError`. -/
def pyParseInt (s : String) : Option Int :=
  pyParseSigned (trimChars s.toList)

/-- Digit run without underscore grouping, as accepted by pydantic's lax
string-to-int coercion. -/
def strictDigitsLoop : List Char → Nat → Option Nat
  | [], acc => some acc
  | c :: rest, acc =>
    if isDigitChar c then strictDigitsLoop rest (acc * 10 + (c.toNat - 48)) else none

/-- Parse a plain digit run that must start with a digit, no underscores. -/
def strictParseDigits (cs : List Char) : Option Nat :=
  match cs with
  | [] => none
  | c :: _ => if isDigitChar c then strictDigitsLoop cs 0 else none

/-- Sign handling of pydantic's lax string-to-int coercion. -/
def pydanticParseSigned : List Char → Option Int
  | [] => none
  | c :: rest =>
    if c = '+' then (strictParseDigits rest).map (fun m => (m : Int))
    else if c = '-' then (strictParseDigits rest).map (fun m => -(m : Int))
    else (strictParseDigits (c :: rest)).map (fun m => (m : Int))

/-- pydantic v2 lax coercion of a string to `int` (used for the `version`
field of the provider databag): trimmed, optional sign, plain digit run. -/
def pydanticParseInt (s : String) : Option Int :=
  pydanticParseSigned (trimChars s.toList)

/-- The ASCII character for a decimal digit value. -/
def decDigitChar (n : Nat) : Char :=
  match n with
  | 0 => '0' | 1 => '1' | 2 => '2' | 3 => '3' | 4 => '4'
  | 5 => '5' | 6 => '6' | 7 => '7' | 8 => '8' | _ => '9'

/-- Decimal digit characters of `n`, most significant first.  Fuel-indexed so
that the definition reduces by kernel computation; `fuel > n` suffices. -/
def natDecCharsAux : Nat → Nat → List Char
  | 0, _ => []
  | fuel + 1, n =>
    if n < 10 then [decDigitChar n]
    else natDecCharsAux fuel (n / 10) ++ [decDigitChar (n % 10)]

/-- Decimal digit characters of `n`, most significant first. -/
def natDecChars (n : Nat) : List Char := natDecCharsAux (n + 1) n

/-- Python `str(n)` for a natural number. -/
def natRepr (n : Nat) : String := String.mk (natDecChars n)

/-- Python `str(n)` for an integer. -/
def pyStrInt (n : Int) : String :=
  if n < 0 then "-" ++ natRepr n.natAbs else natRepr n.natAbs

/-- The lowercase ASCII character for a hexadecimal digit value. -/
def hexDigitChar (n : Nat) : Char :=
  match n with
  | 0 => '0' | 1 => '1' | 2 => '2' | 3 => '3' | 4 => '4'
  | 5 => '5' | 6 => '6' | 7 => '7' | 8 => '8' | 9 => '9'
  | 10 => 'a' | 11 => 'b' | 12 => 'c' | 13 => 'd' | 14 => 'e' | _ => 'f'

/-- Hexadecimal digit characters of `n`, most significant first, lowercase. -/
def natHexCharsAux : Nat → Nat → List Char
  | 0, _ => []
  | fuel + 1, n =>
    if n < 16 then [hexDigitChar n]
    else natHexCharsAux fuel (n / 16) ++ [hexDigitChar (n % 16)]

/-- Hexadecimal digit characters of `n`, most significant first, lowercase. -/
def natHexChars (n : Nat) : List Char := natHexCharsAux (n + 1) n

/-- Lowercase hexadecimal digits of `n` as a string. -/
def natHexRepr (n : Nat) : String := String.mk (natHexChars n)

/-- Python `hex(n)`: `0x`-prefixed lowercase hexadecimal, `-0x` for negatives. -/
def pyHex (n : Int) : String :=
  if n < 0 then "-0x" ++ natHexRepr n.natAbs else "0x" ++ natHexRepr n.natAbs

/-- Python `str.rstrip()`: drop trailing whitespace. -/
def pyRstrip (s : String) : String :=
  String.mk ((s.toList.reverse.dropWhile isWsChar).reverse)

/-- Python truthiness of an `Optional[int]`: `None` and `0` are falsy. -/
def pyTruthyOptInt : Option Int → Bool
  | none => false
  | some n => n != 0

/-- Python `str(x)` applied to an `Optional[int]`: `str(None) = "None"`. -/
def pyStrOptInt : Option Int → String
  | none => "None"
  | some n => pyStrInt n

/-! ## Round-trip lemmas for decimal printing and parsing -/

theorem isWsChar_of_isDigitChar {c : Char} (h : isDigitChar c = true) :
    isWsChar c = false := by
  have h1 : c ≠ ' ' := fun e => by rw [e] at h; exact absurd h (by decide)
  have h2 : c ≠ '\t' := fun e => by rw [e] at h; exact absurd h (by decide)
  have h3 : c ≠ '\n' := fun e => by rw [e] at h; exact absurd h (by decide)
  have h4 : c ≠ '\r' := fun e => by rw [e] at h; exact absurd h (by decide)
  simp [isWsChar, h1, h2, h3, h4]

theorem dropWhile_eq_self_of_not_ws {p : Char → Bool} :
    ∀ cs : List Char, (∀ c ∈ cs, p c = false) → cs.dropWhile p = cs
  | [], _ => rfl
  | c :: rest, h => by
    have hc : p c = false := h c (List.mem_cons_self c rest)
    simp [List.dropWhile, hc]

theorem trimChars_eq_self_of_not_ws (cs : List Char)
    (h : ∀ c ∈ cs, isWsChar c = false) : trimChars cs = cs := by
  unfold trimChars
  rw [dropWhile_eq_self_of_not_ws cs h]
  rw [dropWhile_eq_self_of_not_ws cs.reverse (fun c hc => h c (List.mem_reverse.mp hc))]
  exact List.reverse_reverse cs

theorem decDigitChar_isDigit {n : Nat} (h : n < 10) :
    isDigitChar (decDigitChar n) = true := by
  interval_cases n <;> decide

theorem decDigitChar_val {n : Nat} (h : n < 10) :
    (decDigitChar n).toNat - 48 = n := by
  interval_cases n <;> decide

theorem natDecCharsAux_digits :
    ∀ fuel n, n < fuel → ∀ c ∈ natDecCharsAux fuel n, isDigitChar c = true := by
  intro fuel
  induction fuel with
  | zero => intro n h; omega
  | succ fuel ih =>
    intro n h c hc
    rw [natDecCharsAux] at hc
    by_cases h10 : n < 10
    · simp only [if_pos h10, List.mem_singleton] at hc
      subst hc; exact decDigitChar_isDigit h10
    · simp only [if_neg h10, List.mem_append, List.mem_singleton] at hc
      rcases hc with hc | hc
      · exact ih (n / 10) (by omega) c hc
      · subst hc; exact decDigitChar_isDigit (Nat.mod_lt n (by omega))

theorem natDecCharsAux_ne_nil :
    ∀ fuel n, n < fuel → natDecCharsAux fuel n ≠ [] := by
  intro fuel
  cases fuel with
  | zero => intro n h; omega
  | succ fuel =>
    intro n _
    rw [natDecCharsAux]
    by_cases h10 : n < 10
    · simp [h10]
    · simp [h10]

theorem pyDigitsLoop_cons (c : Char) (rest : List Char) (acc : Nat) :
    pyDigitsLoop (c :: rest) acc =
      (if isDigitChar c then pyDigitsLoop rest (acc * 10 + (c.toNat - 48))
       else if c = '_' then (if pyUnderscoreOk rest then pyDigitsLoop rest acc else none)
       else none) := rfl

theorem pyDigitsLoop_decDigit {m : Nat} (h : m < 10) (ys : List Char) (acc : Nat) :
    pyDigitsLoop (decDigitChar m :: ys) acc = pyDigitsLoop ys (acc * 10 + m) := by
  rw [pyDigitsLoop_cons, if_pos (decDigitChar_isDigit h), decDigitChar_val h]

theorem pyDigitsLoop_natDecCharsAux :
    ∀ fuel n, n < fuel → ∀ acc ys,
      pyDigitsLoop (natDecCharsAux fuel n ++ ys) acc =
        pyDigitsLoop ys (acc * 10 ^ (natDecCharsAux fuel n).length + n) := by
  intro fuel
  induction fuel with
  | zero => intro n h; omega
  | succ fuel ih =>
    intro n h acc ys
    rw [natDecCharsAux]
    by_cases h10 : n < 10
    · rw [if_pos h10]
      rw [List.singleton_append, pyDigitsLoop_decDigit h10]
      norm_num
    · rw [if_neg h10]
      have hrec : n / 10 < fuel := by
        have := Nat.div_lt_self (show 0 < n by omega) (show 1 < 10 by omega)
        omega
      rw [List.append_assoc, List.singleton_append]
      rw [ih (n / 10) hrec acc (decDigitChar (n % 10) :: ys)]
      rw [pyDigitsLoop_decDigit (Nat.mod_lt n (by omega))]
      have hlen : (natDecCharsAux fuel (n / 10) ++ [decDigitChar (n % 10)]).length =
          (natDecCharsAux fuel (n / 10)).length + 1 := by
        simp
      rw [hlen]
      have : (acc * 10 ^ (natDecCharsAux fuel (n / 10)).length + n / 10) * 10 + n % 10 =
          acc * 10 ^ ((natDecCharsAux fuel (n / 10)).length + 1) + n := by
        rw [pow_succ]
        have := Nat.div_add_mod n 10
        ring_nf
        omega
      rw [this]

theorem natDecChars_digits (n : Nat) : ∀ c ∈ natDecChars n, isDigitChar c = true :=
  natDecCharsAux_digits (n + 1) n (Nat.lt_succ_self n)

theorem natDecChars_ne_nil (n : Nat) : natDecChars n ≠ [] :=
  natDecCharsAux_ne_nil (n + 1) n (Nat.lt_succ_self n)

theorem pyDigitsLoop_nil (acc : Nat) : pyDigitsLoop [] acc = some acc := rfl

theorem pyDigitsLoop_natDecChars (n : Nat) :
    pyDigitsLoop (natDecChars n) 0 = some n := by
  have h := pyDigitsLoop_natDecCharsAux (n + 1) n (Nat.lt_succ_self n) 0 []
  rw [List.append_nil] at h
  rw [natDecChars, h, pyDigitsLoop_nil]
  norm_num

theorem pyParseDigits_cons (c : Char) (rest : List Char) :
    pyParseDigits (c :: rest) =
      (if isDigitChar c then pyDigitsLoop (c :: rest) 0 else none) := rfl

theorem pyParseSigned_cons (c : Char) (rest : List Char) :
    pyParseSigned (c :: rest) =
      (if c = '+' then (pyParseDigits rest).map (fun m => (m : Int))
       else if c = '-' then (pyParseDigits rest).map (fun m => -(m : Int))
       else (pyParseDigits (c :: rest)).map (fun m => (m : Int))) := rfl

theorem pyParseDigits_natDecChars (n : Nat) :
    pyParseDigits (natDecChars n) = some n := by
  rcases hcs : natDecChars n with _ | ⟨c, rest⟩
  · exact absurd hcs (natDecChars_ne_nil n)
  · have hd : isDigitChar c = true := by
      have hmem := natDecChars_digits n c
      rw [hcs] at hmem
      exact hmem (List.mem_cons_self c rest)
    rw [pyParseDigits_cons, if_pos hd, ← hcs, pyDigitsLoop_natDecChars]

theorem toList_natRepr (n : Nat) : (natRepr n).toList = natDecChars n := rfl

theorem trim_natRepr (n : Nat) : trimChars (natRepr n).toList = natDecChars n := by
  rw [toList_natRepr]
  exact trimChars_eq_self_of_not_ws _
    (fun c hc => isWsChar_of_isDigitChar (natDecChars_digits n c hc))

theorem pyParseInt_natRepr (n : Nat) : pyParseInt (natRepr n) = some (n : Int) := by
  rw [pyParseInt, trim_natRepr]
  rcases hcs : natDecChars n with _ | ⟨c, rest⟩
  · exact absurd hcs (natDecChars_ne_nil n)
  · have hd : isDigitChar c = true := by
      have hmem := natDecChars_digits n c
      rw [hcs] at hmem
      exact hmem (List.mem_cons_self c rest)
    have hplus : ¬(c = '+') := by
      rintro rfl; exact absurd hd (by decide)
    have hminus : ¬(c = '-') := by
      rintro rfl; exact absurd hd (by decide)
    rw [pyParseSigned_cons, if_neg hplus, if_neg hminus, ← hcs, pyParseDigits_natDecChars]
    rfl

theorem toList_append (a b : String) : (a ++ b).toList = a.toList ++ b.toList := by
  cases a; cases b; rfl

theorem pyParseInt_pyStrInt (n : Int) : pyParseInt (pyStrInt n) = some n := by
  by_cases hneg : n < 0
  · rw [pyStrInt, if_pos hneg, pyParseInt, toList_append]
    have hminus : ("-" : String).toList = ['-'] := rfl
    rw [hminus, toList_natRepr, List.singleton_append]
    have htrim : trimChars ('-' :: natDecChars n.natAbs) = '-' :: natDecChars n.natAbs := by
      apply trimChars_eq_self_of_not_ws
      intro c hc
      rcases List.mem_cons.mp hc with rfl | hc
      · decide
      · exact isWsChar_of_isDigitChar (natDecChars_digits _ c hc)
    rw [htrim, pyParseSigned_cons]
    have hne : ¬(('-' : Char) = '+') := by decide
    rw [if_neg hne, if_pos rfl, pyParseDigits_natDecChars]
    show some (-(n.natAbs : Int)) = some n
    congr 1
    omega
  · rw [pyStrInt, if_neg hneg, pyParseInt_natRepr]
    congr 1
    omega

/-! ## `src/charm_config.py` -/

/-- Raw Juju configuration as consumed by `UEConfig` (`charm.config`): string
options for imsi/key/opc/dnn, integer options for sst/sd; `none` means the
option is absent, in which case the pydantic field default applies. -/
structure RawCharmConfig where
  imsi : Option String
  key : Option String
  opc : Option String
  dnn : Option String
  sst : Option Int
  sd : Option Int
deriving DecidableEq, Repr

namespace UEConfig

def imsiDefault : String := "208930100007487"

def keyDefault : String := "5122250214c33e723a5dd523fc145fc0"

def opcDefault : String := "981d464c7c52eb6e5036234984ad0bcf"

def dnnDefault : String := "internet"

def sdDefault : Int := 102030

/-- `imsi: StrictStr = Field(default=..., max_length=15, min_length=14)`. -/
def imsiInvalid (c : RawCharmConfig) : Bool :=
  match c.imsi with
  | none => false
  | some s => !(14 ≤ s.length && s.length ≤ 15)

/-- `key: StrictStr = Field(default=..., max_length=32, min_length=32)`. -/
def keyInvalid (c : RawCharmConfig) : Bool :=
  match c.key with
  | none => false
  | some s => !(s.length == 32)

/-- `opc: StrictStr = Field(default=..., max_length=32, min_length=32)`. -/
def opcInvalid (c : RawCharmConfig) : Bool :=
  match c.opc with
  | none => false
  | some s => !(s.length == 32)

/-- `dnn: StrictStr = Field(default="internet", min_length=1)`. -/
def dnnInvalid (c : RawCharmConfig) : Bool :=
  match c.dnn with
  | none => false
  | some s => !(1 ≤ s.length)

/-- `sst: int = Field(ge=1, le=4)` — a required field: absence is a
`missing` validation error, also located at field `sst`. -/
def sstInvalid (c : RawCharmConfig) : Bool :=
  match c.sst with
  | none => true
  | some v => !(1 ≤ v && v ≤ 4)

/-- `sd: int = Field(default=102030, ge=0, le=16777215)` together with the
`validate_sd` before-validator requiring `len(str(value)) % 2 == 0`. -/
def sdInvalid (c : RawCharmConfig) : Bool :=
  match c.sd with
  | none => false
  | some v => !((pyStrInt v).length % 2 == 0) || !(0 ≤ v && v ≤ 16777215)

/-- The offending field names in pydantic's declaration order, one error
location per invalid field, as delivered by `ValidationError.errors()`. -/
def errorFieldsDeclOrder (c : RawCharmConfig) : List String :=
  (if imsiInvalid c then ["imsi"] else []) ++
  (if keyInvalid c then ["key"] else []) ++
  (if opcInvalid c then ["opc"] else []) ++
  (if dnnInvalid c then ["dnn"] else []) ++
  (if sstInvalid c then ["sst"] else []) ++
  (if sdInvalid c then ["sd"] else [])

/-- `error_fields.sort()` in `CharmConfig.from_charm`. -/
def errorFieldsSorted (c : RawCharmConfig) : List String :=
  (errorFieldsDeclOrder c).insertionSort (· ≤ ·)

/-- `f"The following configurations are not valid: [{error_field_str}]"`. -/
def invalidConfigMessage (fields : List String) : String :=
  "The following configurations are not valid: [" ++
    String.intercalate ", " (fields.map (fun f => "'" ++ f ++ "'")) ++ "]"

end UEConfig

/-- The validated configuration snapshot (`CharmConfig` dataclass). -/
structure CharmConfig where
  imsi : String
  key : String
  opc : String
  dnn : String
  sst : Int
  sd : Int
deriving DecidableEq, Repr

/-- `CharmConfig.from_charm`: build the snapshot from the raw configuration or
fail with the aggregated, sorted error message. -/
def CharmConfig.from_charm (c : RawCharmConfig) : Except String CharmConfig :=
  match UEConfig.errorFieldsSorted c with
  | [] => .ok
      { imsi := c.imsi.getD UEConfig.imsiDefault
        key := c.key.getD UEConfig.keyDefault
        opc := c.opc.getD UEConfig.opcDefault
        dnn := c.dnn.getD UEConfig.dnnDefault
        sst := c.sst.getD 0
        sd := c.sd.getD UEConfig.sdDefault }
  | errs => .error (UEConfig.invalidConfigMessage errs)

namespace UEConfig

/-- The six validated field names in lexicographic order. -/
def configFieldNames : List String := ["dnn", "imsi", "key", "opc", "sd", "sst"]

/-- Specification-side view: whether the named field is invalid. -/
def fieldInvalid (c : RawCharmConfig) (f : String) : Bool :=
  if f = "imsi" then imsiInvalid c
  else if f = "key" then keyInvalid c
  else if f = "opc" then opcInvalid c
  else if f = "dnn" then dnnInvalid c
  else if f = "sst" then sstInvalid c
  else if f = "sd" then sdInvalid c
  else false

/-- Specification-side view: the offending field names, filtered out of the
lexicographically ordered name list. -/
def offendingFields (c : RawCharmConfig) : List String :=
  (if dnnInvalid c then ["dnn"] else []) ++
  (if imsiInvalid c then ["imsi"] else []) ++
  (if keyInvalid c then ["key"] else []) ++
  (if opcInvalid c then ["opc"] else []) ++
  (if sdInvalid c then ["sd"] else []) ++
  (if sstInvalid c then ["sst"] else [])

theorem errorFieldsSorted_eq_offendingFields (c : RawCharmConfig) :
    errorFieldsSorted c = offendingFields c := by
  rcases h1 : imsiInvalid c <;> rcases h2 : keyInvalid c <;> rcases h3 : opcInvalid c <;>
    rcases h4 : dnnInvalid c <;> rcases h5 : sstInvalid c <;> rcases h6 : sdInvalid c <;>
    simp [errorFieldsSorted, errorFieldsDeclOrder, offendingFields,
      h1, h2, h3, h4, h5, h6] <;> decide

theorem offendingFields_sorted (c : RawCharmConfig) :
    (offendingFields c).Sorted (· ≤ ·) := by
  rcases h1 : imsiInvalid c <;> rcases h2 : keyInvalid c <;> rcases h3 : opcInvalid c <;>
    rcases h4 : dnnInvalid c <;> rcases h5 : sstInvalid c <;> rcases h6 : sdInvalid c <;>
    simp [offendingFields, h1, h2, h3, h4, h5, h6] <;> decide

theorem offendingFields_nodup (c : RawCharmConfig) :
    (offendingFields c).Nodup := by
  rcases h1 : imsiInvalid c <;> rcases h2 : keyInvalid c <;> rcases h3 : opcInvalid c <;>
    rcases h4 : dnnInvalid c <;> rcases h5 : sstInvalid c <;> rcases h6 : sdInvalid c <;>
    simp [offendingFields, h1, h2, h3, h4, h5, h6]

theorem offendingFields_sub_names (c : RawCharmConfig) :
    ∀ f ∈ offendingFields c, f ∈ configFieldNames := by
  rcases h1 : imsiInvalid c <;> rcases h2 : keyInvalid c <;> rcases h3 : opcInvalid c <;>
    rcases h4 : dnnInvalid c <;> rcases h5 : sstInvalid c <;> rcases h6 : sdInvalid c <;>
    simp [offendingFields, configFieldNames, h1, h2, h3, h4, h5, h6]

theorem mem_offendingFields_iff (c : RawCharmConfig) :
    ∀ f ∈ configFieldNames, (f ∈ offendingFields c ↔ fieldInvalid c f = true) := by
  rcases h1 : imsiInvalid c <;> rcases h2 : keyInvalid c <;> rcases h3 : opcInvalid c <;>
    rcases h4 : dnnInvalid c <;> rcases h5 : sstInvalid c <;> rcases h6 : sdInvalid c <;>
    simp [offendingFields, configFieldNames, fieldInvalid, h1, h2, h3, h4, h5, h6]

theorem fieldInvalid_outside (c : RawCharmConfig) (f : String)
    (h : ¬ f ∈ configFieldNames) : fieldInvalid c f = false := by
  unfold fieldInvalid
  have h1 : ¬ f = "imsi" := fun e => h (by rw [e]; decide)
  have h2 : ¬ f = "key" := fun e => h (by rw [e]; decide)
  have h3 : ¬ f = "opc" := fun e => h (by rw [e]; decide)
  have h4 : ¬ f = "dnn" := fun e => h (by rw [e]; decide)
  have h5 : ¬ f = "sst" := fun e => h (by rw [e]; decide)
  have h6 : ¬ f = "sd" := fun e => h (by rw [e]; decide)
  simp [h1, h2, h3, h4, h5, h6]

end UEConfig

/-- **C5.** For every raw configuration map with at least one invalid field,
`CharmConfig.from_charm` fails with an error whose message is exactly
`"The following configurations are not valid: "` followed by the bracketed
list of the offending field names — deduplicated, lexicographically sorted,
and containing no field names other than the offending ones; for fully valid
maps it returns a configuration snapshot without error. -/
theorem C5_from_charm_validation (c : RawCharmConfig) :
    ((∃ f, UEConfig.fieldInvalid c f = true) →
      CharmConfig.from_charm c =
        .error ("The following configurations are not valid: [" ++
          String.intercalate ", "
            ((UEConfig.offendingFields c).map (fun f => "'" ++ f ++ "'")) ++ "]") ∧
      (UEConfig.offendingFields c).Sorted (· ≤ ·) ∧
      (UEConfig.offendingFields c).Nodup ∧
      (∀ f, f ∈ UEConfig.offendingFields c ↔ UEConfig.fieldInvalid c f = true)) ∧
    ((∀ f, UEConfig.fieldInvalid c f = false) →
      ∃ cfg, CharmConfig.from_charm c = .ok cfg) := by
  have hEq := UEConfig.errorFieldsSorted_eq_offendingFields c
  have hmem : ∀ f, f ∈ UEConfig.offendingFields c ↔ UEConfig.fieldInvalid c f = true := by
    intro f
    by_cases hn : f ∈ UEConfig.configFieldNames
    · exact UEConfig.mem_offendingFields_iff c f hn
    · constructor
      · intro hf; exact absurd (UEConfig.offendingFields_sub_names c f hf) hn
      · intro hf; rw [UEConfig.fieldInvalid_outside c f hn] at hf; exact absurd hf (by simp)
  constructor
  · rintro ⟨f, hf⟩
    have hne : UEConfig.offendingFields c ≠ [] := by
      intro hnil
      have := (hmem f).mpr hf
      rw [hnil] at this
      exact absurd this (List.not_mem_nil f)
    rcases hof : UEConfig.offendingFields c with _ | ⟨x, xs⟩
    · exact absurd hof hne
    · refine ⟨?_, hof ▸ UEConfig.offendingFields_sorted c,
        hof ▸ UEConfig.offendingFields_nodup c, hof ▸ hmem⟩
      have hfc : CharmConfig.from_charm c =
          .error (UEConfig.invalidConfigMessage (x :: xs)) := by
        unfold CharmConfig.from_charm
        rw [hEq, hof]
      rw [hfc]
      rfl
  · intro hall
    rcases hof : UEConfig.offendingFields c with _ | ⟨x, xs⟩
    · have hok : CharmConfig.from_charm c = .ok
          { imsi := c.imsi.getD UEConfig.imsiDefault
            key := c.key.getD UEConfig.keyDefault
            opc := c.opc.getD UEConfig.opcDefault
            dnn := c.dnn.getD UEConfig.dnnDefault
            sst := c.sst.getD 0
            sd := c.sd.getD UEConfig.sdDefault } := by
        unfold CharmConfig.from_charm
        rw [hEq, hof]
      exact ⟨_, hok⟩
    · have hx : x ∈ UEConfig.offendingFields c := by rw [hof]; exact List.mem_cons_self x xs
      have := (hmem x).mp hx
      rw [hall x] at this
      exact absurd this (by simp)

/-- Witness for C5: a configuration with empty imsi and key fails with exactly
those two field names, sorted. -/
theorem C5_from_charm_validation_witness :
    CharmConfig.from_charm ⟨some "", some "", none, none, some 1, none⟩ =
      .error "The following configurations are not valid: ['imsi', 'key']" := by
  have h := (C5_from_charm_validation ⟨some "", some "", none, none, some 1, none⟩).1
    ⟨"imsi", by decide⟩
  rw [h.1]
  congr 1

/-! ## `lib/charms/oai_ran_du_k8s/v0/fiveg_rfsim.py` -/

/-- The library's major interface version. -/
def LIBAPI : Int := 0

/-- The provider application databag `relation.data[relation.app]`, restricted
to the keys the library reads and writes (pydantic ignores unknown keys).
Each field is the raw string value, `none` when the key is absent. -/
structure RemoteAppDatabag where
  version : Option String
  rfsim_address : Option String
  sst : Option String
  sd : Option String
  band : Option String
  dl_freq : Option String
  carrier_bandwidth : Option String
  numerology : Option String
  start_subcarrier : Option String
deriving DecidableEq, Repr

/-- A databag with no keys set. -/
def emptyDatabag : RemoteAppDatabag :=
  ⟨none, none, none, none, none, none, none, none, none⟩

/-- One dotted octet of an IPv4 address as accepted by Python's `ipaddress`
module: 1–3 ASCII digits, no leading zero, value at most 255. -/
def isValidIpv4Octet (cs : List Char) : Bool :=
  (1 ≤ cs.length && cs.length ≤ 3) && cs.all isDigitChar &&
  (cs.length == 1 || cs.head? != some '0') &&
  (match strictDigitsLoop cs 0 with
   | some v => decide (v ≤ 255)
   | none => false)

/-- Split a character list on `'.'` (the semantics of `str.split(".")`). -/
def splitOnDot : List Char → List (List Char)
  | [] => [[]]
  | c :: rest =>
    if c = '.' then [] :: splitOnDot rest
    else
      match splitOnDot rest with
      | [] => [[c]]
      | g :: gs => (c :: g) :: gs

/-- Validity of the `rfsim_address` value for the pydantic `IPvAnyAddress`
field.  Only the IPv4 branch of `IPvAnyAddress` is modelled; the claims under
study only involve IPv4-form addresses. -/
def isValidIpv4 (s : String) : Bool :=
  match splitOnDot s.toList with
  | [a, b, c, d] =>
    isValidIpv4Octet a && isValidIpv4Octet b &&
    isValidIpv4Octet c && isValidIpv4Octet d
  | _ => false

/-- `ProviderAppData`, the validated provider record, with semantic field
values.  `rfsim_address` is kept as its (validated, canonical) address text. -/
structure ProviderAppData where
  version : Int
  rfsim_address : String
  sst : Int
  sd : Option Int
  band : Int
  dl_freq : Int
  carrier_bandwidth : Int
  numerology : Int
  start_subcarrier : Int
deriving DecidableEq, Repr

/-- The pydantic `Field` bounds of `ProviderAppData`: `version ≥ 0`, valid
address, `0 ≤ sst ≤ 255`, optional `0 ≤ sd ≤ 16777215`, `band > 0`,
`dl_freq ≥ 410000000`, `11 ≤ carrier_bandwidth ≤ 273`, `0 ≤ numerology ≤ 6`,
`start_subcarrier ≥ 0`.  This is `provider_data_is_valid` on semantic values
(the source coerces its string-keyed dict through the same pydantic model). -/
def provider_data_is_valid (d : ProviderAppData) : Bool :=
  (0 ≤ d.version) &&
  isValidIpv4 d.rfsim_address &&
  (0 ≤ d.sst && d.sst ≤ 255) &&
  (match d.sd with
   | none => true
   | some v => 0 ≤ v && v ≤ 16777215) &&
  (0 < d.band) &&
  (410000000 ≤ d.dl_freq) &&
  (11 ≤ d.carrier_bandwidth && d.carrier_bandwidth ≤ 273) &&
  (0 ≤ d.numerology && d.numerology ≤ 6) &&
  (0 ≤ d.start_subcarrier)

/-- `int(remote_app_relation_data.get(key, ""))` for a required field. -/
def parseRequired (fld : Option String) : Option Int :=
  pyParseInt (fld.getD "")

/-- `RFSIMRequires.get_provider_rfsim_information`.  The argument is the
provider databag; `none` models both "no relation" and "no remote
application in relation", which return `None` in the source.  Every failure
path (a required field missing or not parsing as an integer via `int()`, a
falsy-but-present `sd`, a pydantic validation error) is caught in the source
and returns `None`, never raising. -/
def get_provider_rfsim_information (relationData : Option RemoteAppDatabag) :
    Option ProviderAppData :=
  match relationData with
  | none => none
  | some bag =>
    match parseRequired bag.sst with
    | none => none
    | some sstV =>
      match parseRequired bag.band with
      | none => none
      | some bandV =>
        match parseRequired bag.dl_freq with
        | none => none
        | some dlFreqV =>
          match parseRequired bag.carrier_bandwidth with
          | none => none
          | some cbwV =>
            match parseRequired bag.numerology with
            | none => none
            | some numeV =>
              match parseRequired bag.start_subcarrier with
              | none => none
              | some sscV =>
                let sdStep : Option (Option Int) :=
                  match bag.sd with
                  | none => some none
                  | some s =>
                    if s = "" then none
                    else
                      match pyParseInt s with
                      | none => none
                      | some v => some (some v)
                match sdStep with
                | none => none
                | some sdVal =>
                  match bag.version, bag.rfsim_address with
                  | some vs, some addr =>
                    match pydanticParseInt vs with
                    | none => none
                    | some verV =>
                      let d : ProviderAppData :=
                        { version := verV, rfsim_address := addr, sst := sstV,
                          sd := sdVal, band := bandV, dl_freq := dlFreqV,
                          carrier_bandwidth := cbwV, numerology := numeV,
                          start_subcarrier := sscV }
                      if provider_data_is_valid d then some d else none
                  | _, _ => none

namespace RFSIMRequires

/-- `RFSIMRequires._get_provider_interface_version`:
`int(dict(relation.data[relation.app]).get("version", ""))`, `None` on
`ValueError` or missing relation/app. -/
def provider_interface_version (relationData : Option RemoteAppDatabag) : Option Int :=
  match relationData with
  | none => none
  | some bag => pyParseInt (bag.version.getD "")

/-- The `rfsim_address` property. -/
def rfsim_address (rd : Option RemoteAppDatabag) : Option String :=
  (get_provider_rfsim_information rd).map ProviderAppData.rfsim_address

/-- The `sst` property. -/
def sst (rd : Option RemoteAppDatabag) : Option Int :=
  (get_provider_rfsim_information rd).map ProviderAppData.sst

/-- The `sd` property. -/
def sd (rd : Option RemoteAppDatabag) : Option Int :=
  (get_provider_rfsim_information rd).bind ProviderAppData.sd

/-- The `band` property. -/
def band (rd : Option RemoteAppDatabag) : Option Int :=
  (get_provider_rfsim_information rd).map ProviderAppData.band

/-- The `dl_freq` property. -/
def dl_freq (rd : Option RemoteAppDatabag) : Option Int :=
  (get_provider_rfsim_information rd).map ProviderAppData.dl_freq

/-- The `carrier_bandwidth` property. -/
def carrier_bandwidth (rd : Option RemoteAppDatabag) : Option Int :=
  (get_provider_rfsim_information rd).map ProviderAppData.carrier_bandwidth

/-- The `numerology` property. -/
def numerology (rd : Option RemoteAppDatabag) : Option Int :=
  (get_provider_rfsim_information rd).map ProviderAppData.numerology

/-- The `start_subcarrier` property. -/
def start_subcarrier (rd : Option RemoteAppDatabag) : Option Int :=
  (get_provider_rfsim_information rd).map ProviderAppData.start_subcarrier

end RFSIMRequires

/-- The arguments of `RFSIMProvides.set_rfsim_information`. -/
structure RfsimPublishArgs where
  rfsim_address : String
  sst : Int
  sd : Option Int
  band : Int
  dl_freq : Int
  carrier_bandwidth : Int
  numerology : Int
  start_subcarrier : Int
deriving DecidableEq, Repr

/-- `RFSIMProvides.set_rfsim_information`: raises unless the unit is leader and
the relation exists; validates through `provider_data_is_valid` (the source
passes `version=str(LIBAPI)` through the same pydantic coercion); then
`relation.data[app].update(data)` — written keys overwrite, keys not written
(an omitted `sd`) keep their prior value. -/
def set_rfsim_information (isLeader : Bool) (relationExists : Bool)
    (prior : RemoteAppDatabag) (a : RfsimPublishArgs) :
    Except String RemoteAppDatabag :=
  if !isLeader then .error "Unit must be leader to set application relation data."
  else if !relationExists then .error "Relation fiveg_rfsim not created yet."
  else if !(provider_data_is_valid
      { version := LIBAPI, rfsim_address := a.rfsim_address, sst := a.sst,
        sd := a.sd, band := a.band, dl_freq := a.dl_freq,
        carrier_bandwidth := a.carrier_bandwidth, numerology := a.numerology,
        start_subcarrier := a.start_subcarrier }) then
    .error "Invalid relation data"
  else .ok
    { version := some (pyStrInt LIBAPI)
      rfsim_address := some a.rfsim_address
      sst := some (pyStrInt a.sst)
      sd := match a.sd with
            | none => prior.sd
            | some v => some (pyStrInt v)
      band := some (pyStrInt a.band)
      dl_freq := some (pyStrInt a.dl_freq)
      carrier_bandwidth := some (pyStrInt a.carrier_bandwidth)
      numerology := some (pyStrInt a.numerology)
      start_subcarrier := some (pyStrInt a.start_subcarrier) }

theorem natRepr_ne_empty (n : Nat) : natRepr n ≠ "" := by
  intro h
  have hl := congrArg String.toList h
  rw [toList_natRepr] at hl
  exact natDecChars_ne_nil n hl

theorem pyStrInt_ne_empty (v : Int) : pyStrInt v ≠ "" := by
  unfold pyStrInt
  by_cases hneg : v < 0
  · rw [if_pos hneg]
    intro h
    have hl := congrArg String.toList h
    rw [toList_append] at hl
    simp at hl
  · rw [if_neg hneg]
    exact natRepr_ne_empty v.natAbs

/-- **C4.** For every relation record in which any required field (`sst`,
`band`, `dl_freq`, `carrier_bandwidth`, `numerology`, `start_subcarrier`) is
missing or fails to parse as an integer, the requirer's read returns `None`;
it also returns `None` when the relation or its remote application is absent.
The read is modelled as a total function: every failure path in the source is
caught and converted to `None`, so it never raises. -/
theorem C4_requirer_read_absent (bag : RemoteAppDatabag)
    (h : parseRequired bag.sst = none ∨ parseRequired bag.band = none ∨
         parseRequired bag.dl_freq = none ∨ parseRequired bag.carrier_bandwidth = none ∨
         parseRequired bag.numerology = none ∨ parseRequired bag.start_subcarrier = none) :
    get_provider_rfsim_information (some bag) = none ∧
    get_provider_rfsim_information none = none := by
  refine ⟨?_, rfl⟩
  rcases h with h | h | h | h | h | h <;>
    simp only [get_provider_rfsim_information] <;>
    rcases h1 : parseRequired bag.sst with _ | s1 <;>
    rcases h2 : parseRequired bag.band with _ | s2 <;>
    rcases h3 : parseRequired bag.dl_freq with _ | s3 <;>
    rcases h4 : parseRequired bag.carrier_bandwidth with _ | s4 <;>
    rcases h5 : parseRequired bag.numerology with _ | s5 <;>
    rcases h6 : parseRequired bag.start_subcarrier with _ | s6 <;>
    simp_all

/-- Witness for C4: a record with every field present except `numerology`
(and one with an unparsable `sst`) reads as absent. -/
theorem C4_requirer_read_absent_witness :
    get_provider_rfsim_information
      (some { version := some "0", rfsim_address := some "1.1.1.1", sst := some "1",
              sd := none, band := some "77", dl_freq := some "3924060000",
              carrier_bandwidth := some "106", numerology := none,
              start_subcarrier := some "529" }) = none :=
  (C4_requirer_read_absent
    { version := some "0", rfsim_address := some "1.1.1.1", sst := some "1",
      sd := none, band := some "77", dl_freq := some "3924060000",
      carrier_bandwidth := some "106", numerology := none,
      start_subcarrier := some "529" }
    (by right; right; right; right; left; decide)).1

/-- **C6.** Round-trip: for every schema-valid full record, a leader provider
publishing it over an established relation (with a fresh databag) followed
immediately by a requirer read recovers every field with its original
semantic value; each integer field survives the string encoding and decoding
exactly, the optional `sd` is recovered when published and absent when
omitted, and the version round-trips to `LIBAPI`. -/
theorem C6_publish_read_roundtrip (a : RfsimPublishArgs)
    (hvalid : provider_data_is_valid
      { version := LIBAPI, rfsim_address := a.rfsim_address, sst := a.sst,
        sd := a.sd, band := a.band, dl_freq := a.dl_freq,
        carrier_bandwidth := a.carrier_bandwidth, numerology := a.numerology,
        start_subcarrier := a.start_subcarrier } = true) :
    ∃ bag, set_rfsim_information true true emptyDatabag a = .ok bag ∧
      get_provider_rfsim_information (some bag) = some
        { version := LIBAPI, rfsim_address := a.rfsim_address, sst := a.sst,
          sd := a.sd, band := a.band, dl_freq := a.dl_freq,
          carrier_bandwidth := a.carrier_bandwidth, numerology := a.numerology,
          start_subcarrier := a.start_subcarrier } := by
  refine ⟨{ version := some (pyStrInt LIBAPI)
            rfsim_address := some a.rfsim_address
            sst := some (pyStrInt a.sst)
            sd := match a.sd with
                  | none => emptyDatabag.sd
                  | some v => some (pyStrInt v)
            band := some (pyStrInt a.band)
            dl_freq := some (pyStrInt a.dl_freq)
            carrier_bandwidth := some (pyStrInt a.carrier_bandwidth)
            numerology := some (pyStrInt a.numerology)
            start_subcarrier := some (pyStrInt a.start_subcarrier) }, ?_, ?_⟩
  · unfold set_rfsim_information
    rw [hvalid]
    rfl
  · have hver : pydanticParseInt (pyStrInt LIBAPI) = some 0 := by decide
    rcases hsd : a.sd with _ | v
    · simp only [get_provider_rfsim_information, parseRequired, Option.getD, hsd,
        pyParseInt_pyStrInt, hver, emptyDatabag]
      rw [if_pos]
      · rfl
      · rw [← hsd]; exact hvalid
    · have hne : pyStrInt v ≠ "" := pyStrInt_ne_empty v
      simp only [get_provider_rfsim_information, parseRequired, Option.getD, hsd,
        pyParseInt_pyStrInt, hver, if_neg hne]
      rw [if_pos]
      · rfl
      · rw [← hsd]; exact hvalid

/-- Witness for C6 at a concrete schema-valid record. -/
theorem C6_publish_read_roundtrip_witness :
    ∃ bag, set_rfsim_information true true emptyDatabag
        { rfsim_address := "192.168.70.130", sst := 1, sd := some 1, band := 77,
          dl_freq := 4059090000, carrier_bandwidth := 106, numerology := 1,
          start_subcarrier := 541 } = .ok bag ∧
      get_provider_rfsim_information (some bag) = some
        { version := LIBAPI, rfsim_address := "192.168.70.130", sst := 1,
          sd := some 1, band := 77, dl_freq := 4059090000,
          carrier_bandwidth := 106, numerology := 1, start_subcarrier := 541 } :=
  C6_publish_read_roundtrip
    { rfsim_address := "192.168.70.130", sst := 1, sd := some 1, band := 77,
      dl_freq := 4059090000, carrier_bandwidth := 106, numerology := 1,
      start_subcarrier := 541 } (by decide)

/-! ## `src/charm.py` -/

def BASE_CONFIG_PATH : String := "/tmp/conf"

def CONFIG_FILE_NAME : String := "ue.conf"

/-- `OaiRanUeK8SOperatorCharm.get_sd_as_hex`: the SD in hexadecimal; per
TS 23.003 an absent SD is the sentinel `0xffffff`. -/
def get_sd_as_hex : Option Int → String
  | none => "0xffffff"
  | some v => pyHex v

/-- One Pebble service definition as produced by `_get_ue_pebble_layer`:
`{"override": "replace", "startup": "enabled", "command": ..., "environment": ...}`.
The `override` key is named `serviceOverride` here. -/
structure ServiceDef where
  serviceOverride : String
  startup : String
  command : String
  environment : List (String × String)
deriving DecidableEq, Repr

/-- The per-event inputs of a reconciliation or status pass: raw juju config,
container reachability, pod IP (`none` when `unit-get` yields nothing), and
the `fiveg_rfsim` relation (whether created, and the provider databag —
`none` models a missing relation or missing remote application). -/
structure CharmInputs where
  rawConfig : RawCharmConfig
  canConnect : Bool
  podIp : Option String
  relationCreated : Bool
  remoteAppData : Option RemoteAppDatabag
deriving DecidableEq, Repr

/-- What `self.model.get_relation(...)` yields to the requirer library:
the databag when the relation exists, `none` otherwise. -/
def CharmInputs.relationBag (i : CharmInputs) : Option RemoteAppDatabag :=
  if i.relationCreated then i.remoteAppData else none

/-- The external state a reconciliation pass reads and writes: the
statefulset patch status, the USB mount status, whether the storage path
exists in the container, the on-disk config file content (`none` when the
file does not exist), and the Pebble plan's `ue` service. -/
structure CharmState where
  patched : Bool
  usbMounted : Bool
  storageAttached : Bool
  configFile : Option String
  planServices : Option ServiceDef
deriving DecidableEq, Repr

/-- Observable side effects of one reconciliation pass: config-file pushes,
service restarts, and Pebble layer additions. -/
structure Effects where
  configWrites : Nat
  restarts : Nat
  layerAdds : Nat
deriving DecidableEq, Repr

def noEffects : Effects := ⟨0, 0, 0⟩

/-- `_config_file_content_matches`: `False` when the file does not exist or
its content differs byte-for-byte from `content`. -/
def config_file_content_matches (s : CharmState) (content : String) : Bool :=
  match s.configFile with
  | none => false
  | some existing => existing == content

/-- `_get_sst`: the SST from the relation when created, otherwise from the
validated charm configuration. -/
def charm_get_sst (i : CharmInputs) (cfg : CharmConfig) : Option Int :=
  if i.relationCreated then RFSIMRequires.sst i.relationBag else some cfg.sst

/-- `_get_sd`: the SD from the relation when created, otherwise from the
validated charm configuration. -/
def charm_get_sd (i : CharmInputs) (cfg : CharmConfig) : Option Int :=
  if i.relationCreated then RFSIMRequires.sd i.relationBag else some cfg.sd

/-- Modelled from the spec: `_render_config_file` renders the Jinja2 template
`src/templates/ue.conf.j2`, which is not among the provided sources.  §4.4 of
the spec requires only that render be a deterministic pure function of
(identity, key, operator code, network name, slice type, slice-diff-hex)
producing text; it is modelled as a canonical key-value rendering.  The
claims below depend only on determinism in these six parameters. -/
def render_config_file (imsi key opc dnn : String) (sst : Int) (sd : String) : String :=
  "imsi = " ++ imsi ++ "; key = " ++ key ++ "; opc = " ++ opc ++
  "; dnn = " ++ dnn ++ "; nssai_sst = " ++ pyStrInt sst ++ "; nssai_sd = " ++ sd ++ ";\n"

/-- `_generate_ue_config`: empty string when the SST is falsy (logged error),
otherwise the rendered template right-stripped. -/
def generate_ue_config (i : CharmInputs) (cfg : CharmConfig) : String :=
  match charm_get_sst i cfg with
  | none => ""
  | some sstV =>
    if sstV = 0 then ""
    else pyRstrip (render_config_file cfg.imsi cfg.key cfg.opc cfg.dnn sstV
      (get_sd_as_hex (charm_get_sd i cfg)))

/-- `_get_ue_startup_command`: the requirer RF properties are stringified
unconditionally (`str(None) = "None"`). -/
def get_ue_startup_command (bag : Option RemoteAppDatabag) (rfsim : Bool) : String :=
  if rfsim then
    String.intercalate " "
      ["/opt/oai-gnb/bin/nr-uesoftmodem", "-O", BASE_CONFIG_PATH ++ "/" ++ CONFIG_FILE_NAME,
       "--rfsim", "-r", pyStrOptInt (RFSIMRequires.carrier_bandwidth bag),
       "--numerology", pyStrOptInt (RFSIMRequires.numerology bag),
       "-C", pyStrOptInt (RFSIMRequires.dl_freq bag),
       "--ssb", pyStrOptInt (RFSIMRequires.start_subcarrier bag),
       "--band", pyStrOptInt (RFSIMRequires.band bag),
       "--log_config.global_log_options", "level,nocolor,time",
       "--rfsimulator.serveraddr", (RFSIMRequires.rfsim_address bag).getD ""]
  else
    String.intercalate " "
      ["/opt/oai-gnb/bin/nr-uesoftmodem", "-O", BASE_CONFIG_PATH ++ "/" ++ CONFIG_FILE_NAME,
       "-r", pyStrOptInt (RFSIMRequires.carrier_bandwidth bag),
       "--numerology", pyStrOptInt (RFSIMRequires.numerology bag),
       "-C", pyStrOptInt (RFSIMRequires.dl_freq bag),
       "--ssb", pyStrOptInt (RFSIMRequires.start_subcarrier bag),
       "--band", pyStrOptInt (RFSIMRequires.band bag),
       "-E", "--log_config.global_log_options", "level,nocolor,time"]

/-- `_get_ue_pebble_layer` (with `_ue_environment_variables = {"TZ": "UTC"}`). -/
def get_ue_pebble_layer (bag : Option RemoteAppDatabag) (rfsim : Bool) : ServiceDef :=
  { serviceOverride := "replace"
    startup := "enabled"
    command := get_ue_startup_command bag rfsim
    environment := [("TZ", "UTC")] }

/-- `_configure_pebble`: re-apply the layer only when the plan's services
differ structurally; restart the service only when `restart` was requested,
otherwise merely replan. -/
def configure_pebble (bag : Option RemoteAppDatabag) (s : CharmState)
    (rfsim restartFlag : Bool) : CharmState × Effects :=
  let layer := get_ue_pebble_layer bag rfsim
  let s1 := if s.planServices ≠ some layer then { s with planServices := some layer } else s
  let adds : Nat := if s.planServices ≠ some layer then 1 else 0
  if restartFlag then (s1, { configWrites := 0, restarts := 1, layerAdds := adds })
  else (s1, { configWrites := 0, restarts := 0, layerAdds := adds })

/-- The Kubernetes side effects at the top of `_configure`: patch the
statefulset when unpatched; mount the USB volume when no rfsim relation and
not mounted; unmount it when the relation exists and it is mounted. -/
def k8sStep (i : CharmInputs) (s : CharmState) : CharmState :=
  let sa := if !s.patched then { s with patched := true } else s
  let sb := if !i.relationCreated && !sa.usbMounted then { sa with usbMounted := true } else sa
  if i.relationCreated && sb.usbMounted then { sb with usbMounted := false } else sb

/-- The guard `relation created and (no rfsim_address or falsy sst)` under
which `_configure` returns early after the k8s side effects. -/
def rfsimGuardFails (i : CharmInputs) : Bool :=
  i.relationCreated &&
    (!(RFSIMRequires.rfsim_address i.relationBag).isSome ||
     !pyTruthyOptInt (RFSIMRequires.sst i.relationBag))

/-- `_configure`: the reconciliation pass, with its guard clauses, the k8s
patch/mount side effects, the content comparison driving the file write and
the restart flag, and the Pebble reconfiguration. -/
def configure (i : CharmInputs) (s : CharmState) : CharmState × Effects :=
  match CharmConfig.from_charm i.rawConfig with
  | .error _ => (s, noEffects)
  | .ok cfg =>
    if !i.canConnect then (s, noEffects)
    else if i.podIp.isNone then (s, noEffects)
    else
      let s1 := k8sStep i s
      if rfsimGuardFails i then (s1, noEffects)
      else if !s1.storageAttached then (s1, noEffects)
      else
        let content := generate_ue_config i cfg
        let restartFlag := !config_file_content_matches s1 content
        let s2 := if restartFlag then { s1 with configFile := some content } else s1
        let w : Nat := if restartFlag then 1 else 0
        let r := configure_pebble i.relationBag s2 i.relationCreated restartFlag
        (r.1, { r.2 with configWrites := w })

/-- The unit status as set by `event.add_status` plus early return. -/
inductive UnitStatus
  | active : UnitStatus
  | blocked : String → UnitStatus
  | waiting : String → UnitStatus
deriving DecidableEq, Repr

/-- The `all([...])` truthiness check over the requirer properties in
`_on_collect_unit_status` (interface version, sst, sd, band, dl_freq,
numerology, carrier_bandwidth, start_subcarrier): `None` and `0` are falsy. -/
def rfsim_info_complete (i : CharmInputs) : Bool :=
  let bag := i.relationBag
  [RFSIMRequires.provider_interface_version bag, RFSIMRequires.sst bag,
   RFSIMRequires.sd bag, RFSIMRequires.band bag, RFSIMRequires.dl_freq bag,
   RFSIMRequires.numerology bag, RFSIMRequires.carrier_bandwidth bag,
   RFSIMRequires.start_subcarrier bag].all pyTruthyOptInt

/-- `_on_collect_unit_status`: the first failing check wins, in source order.
(The workload-version publication before `ActiveStatus` is not modelled; it
does not affect the reported status.) -/
def collect_unit_status (isLeader : Bool) (i : CharmInputs) (s : CharmState) : UnitStatus :=
  if !isLeader then .blocked "Scaling is not implemented for this charm"
  else
    match CharmConfig.from_charm i.rawConfig with
    | .error msg => .blocked msg
    | .ok _ =>
      if !i.canConnect then .waiting "Waiting for container to be ready"
      else if i.podIp.isNone then .waiting "Waiting for Pod IP address to be available"
      else if !s.patched then .waiting "Waiting for statefulset to be patched"
      else if !i.relationCreated && !s.usbMounted then
        .waiting "Waiting for USB device to be mounted"
      else if i.relationCreated && !rfsim_info_complete i then
        .waiting "Waiting for RFSIM information"
      else if i.relationCreated &&
          (RFSIMRequires.provider_interface_version i.relationBag != some LIBAPI) then
        .blocked "Can't establish communication over the `fiveg_rfsim` interface due to version mismatch!"
      else if !s.storageAttached then .waiting "Waiting for storage to be attached"
      else .active

/-! ## Spec lemmas for the reconciliation pass -/

theorem k8sStep_preserves (i : CharmInputs) (s : CharmState) :
    (k8sStep i s).storageAttached = s.storageAttached ∧
    (k8sStep i s).configFile = s.configFile ∧
    (k8sStep i s).planServices = s.planServices := by
  unfold k8sStep
  rcases hp : s.patched <;> rcases hr : i.relationCreated <;> rcases hu : s.usbMounted <;>
    simp [hp, hr, hu]

theorem configure_pebble_spec (bag : Option RemoteAppDatabag) (s : CharmState)
    (rfsim restartFlag : Bool) :
    (configure_pebble bag s rfsim restartFlag).1.planServices =
      some (get_ue_pebble_layer bag rfsim) ∧
    (configure_pebble bag s rfsim restartFlag).1.configFile = s.configFile ∧
    (configure_pebble bag s rfsim restartFlag).1.storageAttached = s.storageAttached ∧
    (configure_pebble bag s rfsim restartFlag).1.patched = s.patched ∧
    (configure_pebble bag s rfsim restartFlag).1.usbMounted = s.usbMounted ∧
    (configure_pebble bag s rfsim restartFlag).2.restarts =
      (if restartFlag then 1 else 0) ∧
    (configure_pebble bag s rfsim restartFlag).2.configWrites = 0 ∧
    (configure_pebble bag s rfsim restartFlag).2.layerAdds =
      (if s.planServices = some (get_ue_pebble_layer bag rfsim) then 0 else 1) := by
  unfold configure_pebble
  by_cases h : s.planServices = some (get_ue_pebble_layer bag rfsim)
  · cases restartFlag <;> simp [h]
  · cases restartFlag <;> simp [h]

theorem configure_reach (i : CharmInputs) (s : CharmState) (cfg : CharmConfig)
    (hcfg : CharmConfig.from_charm i.rawConfig = .ok cfg)
    (hcc : i.canConnect = true)
    (hip : i.podIp.isNone = false)
    (hguard : rfsimGuardFails i = false)
    (hstorage : s.storageAttached = true) :
    configure i s =
      (let s1 := k8sStep i s
       let content := generate_ue_config i cfg
       let restartFlag := !config_file_content_matches s1 content
       let s2 := if restartFlag then { s1 with configFile := some content } else s1
       let w : Nat := if restartFlag then 1 else 0
       let r := configure_pebble i.relationBag s2 i.relationCreated restartFlag
       (r.1, { r.2 with configWrites := w })) := by
  have hs1 : (k8sStep i s).storageAttached = true :=
    (k8sStep_preserves i s).1.trans hstorage
  unfold configure
  rw [hcfg]
  simp only [hcc, hip, hguard, hs1, Bool.not_true, Bool.not_false, if_false, if_true,
    Bool.false_eq_true, if_neg, ite_false, ite_true]

theorem config_file_content_matches_iff (s : CharmState) (content : String) :
    config_file_content_matches s content = true ↔ s.configFile = some content := by
  unfold config_file_content_matches
  rcases h : s.configFile with _ | e <;> simp

/-- **C2.** During every reconciliation pass that reaches process
configuration, the supervised process is restarted iff the newly rendered
configuration content differs from the previously persisted file content
(a missing file counts as different); the Pebble service definition is
re-applied iff it differs structurally from the current plan; and a
definition change alone — content unchanged — re-applies the definition but
never forces a restart. -/
theorem C2_restart_iff_content_change (i : CharmInputs) (s : CharmState) (cfg : CharmConfig)
    (hcfg : CharmConfig.from_charm i.rawConfig = .ok cfg)
    (hcc : i.canConnect = true)
    (hip : i.podIp.isNone = false)
    (hguard : rfsimGuardFails i = false)
    (hstorage : s.storageAttached = true) :
    ((configure i s).2.restarts = 1 ↔ s.configFile ≠ some (generate_ue_config i cfg)) ∧
    ((configure i s).2.layerAdds = 1 ↔
      s.planServices ≠ some (get_ue_pebble_layer i.relationBag i.relationCreated)) ∧
    (s.configFile = some (generate_ue_config i cfg) → (configure i s).2.restarts = 0) := by
  obtain ⟨hst, hcf, hpl⟩ := k8sStep_preserves i s
  have hmk : config_file_content_matches (k8sStep i s) (generate_ue_config i cfg)
      = config_file_content_matches s (generate_ue_config i cfg) := by
    unfold config_file_content_matches
    rw [hcf]
  rw [configure_reach i s cfg hcfg hcc hip hguard hstorage]
  by_cases hm : config_file_content_matches s (generate_ue_config i cfg) = true
  · obtain ⟨hplan, hcfile, hsto, hpat, husb, hres, hwr, hadds⟩ :=
      configure_pebble_spec i.relationBag (k8sStep i s) i.relationCreated false
    rw [hpl] at hadds
    have hm' := (config_file_content_matches_iff s _).mp hm
    by_cases hpl2 : s.planServices =
        some (get_ue_pebble_layer i.relationBag i.relationCreated)
    · simp [hmk, hm, hres, hadds, hm', hpl2]
    · simp [hmk, hm, hres, hadds, hm', hpl2]
  · obtain ⟨hplan, hcfile, hsto, hpat, husb, hres, hwr, hadds⟩ :=
      configure_pebble_spec i.relationBag
        { k8sStep i s with configFile := some (generate_ue_config i cfg) }
        i.relationCreated true
    have hpl3 : ({ k8sStep i s with
        configFile := some (generate_ue_config i cfg) } : CharmState).planServices
        = s.planServices := hpl
    rw [hpl3] at hadds
    have hm' : ¬ s.configFile = some (generate_ue_config i cfg) := by
      intro h
      exact hm ((config_file_content_matches_iff s _).mpr h)
    by_cases hpl2 : s.planServices =
        some (get_ue_pebble_layer i.relationBag i.relationCreated)
    · simp [hmk, hm, hres, hadds, hm', hpl2]
    · simp [hmk, hm, hres, hadds, hm', hpl2]

/-- Witness for C2: a pass over a state whose on-disk content already equals
the rendered content and whose plan differs re-applies the layer but does not
restart. -/
theorem C2_restart_iff_content_change_witness :
    ((configure
        { rawConfig := ⟨none, none, none, none, some 1, none⟩, canConnect := true,
          podIp := some "1.2.3.4", relationCreated := false, remoteAppData := none }
        { patched := true, usbMounted := true, storageAttached := true,
          configFile := some (generate_ue_config
            { rawConfig := ⟨none, none, none, none, some 1, none⟩, canConnect := true,
              podIp := some "1.2.3.4", relationCreated := false, remoteAppData := none }
            { imsi := UEConfig.imsiDefault, key := UEConfig.keyDefault,
              opc := UEConfig.opcDefault, dnn := UEConfig.dnnDefault,
              sst := 1, sd := UEConfig.sdDefault }),
          planServices := none }).2.restarts = 0) :=
  (C2_restart_iff_content_change
    { rawConfig := ⟨none, none, none, none, some 1, none⟩, canConnect := true,
      podIp := some "1.2.3.4", relationCreated := false, remoteAppData := none }
    { patched := true, usbMounted := true, storageAttached := true,
      configFile := some (generate_ue_config
        { rawConfig := ⟨none, none, none, none, some 1, none⟩, canConnect := true,
          podIp := some "1.2.3.4", relationCreated := false, remoteAppData := none }
        { imsi := UEConfig.imsiDefault, key := UEConfig.keyDefault,
          opc := UEConfig.opcDefault, dnn := UEConfig.dnnDefault,
          sst := 1, sd := UEConfig.sdDefault }),
      planServices := none }
    { imsi := UEConfig.imsiDefault, key := UEConfig.keyDefault,
      opc := UEConfig.opcDefault, dnn := UEConfig.dnnDefault,
      sst := 1, sd := UEConfig.sdDefault }
    rfl rfl rfl (by decide) rfl).2.2 rfl

theorem configure_reach_state (i : CharmInputs) (s : CharmState) (cfg : CharmConfig)
    (hcfg : CharmConfig.from_charm i.rawConfig = .ok cfg)
    (hcc : i.canConnect = true)
    (hip : i.podIp.isNone = false)
    (hguard : rfsimGuardFails i = false)
    (hstorage : s.storageAttached = true) :
    ((configure i s).1).configFile = some (generate_ue_config i cfg) ∧
    ((configure i s).1).storageAttached = true := by
  obtain ⟨hst, hcf, hpl⟩ := k8sStep_preserves i s
  have hmk : config_file_content_matches (k8sStep i s) (generate_ue_config i cfg)
      = config_file_content_matches s (generate_ue_config i cfg) := by
    unfold config_file_content_matches
    rw [hcf]
  rw [configure_reach i s cfg hcfg hcc hip hguard hstorage]
  by_cases hm : config_file_content_matches s (generate_ue_config i cfg) = true
  · obtain ⟨hplan, hcfile, hsto, hpat, husb, hres, hwr, hadds⟩ :=
      configure_pebble_spec i.relationBag (k8sStep i s) i.relationCreated false
    have hm' := (config_file_content_matches_iff s _).mp hm
    simp [hmk, hm, hcfile, hsto, hcf, hst, hm', hstorage]
  · simp only [hmk, hm, Bool.not_false, if_true, if_false, ite_true, ite_false,
      Bool.false_eq_true]
    simp [hst, hstorage]
    obtain ⟨hplan, hcfile, hsto, hpat, husb, hres, hwr, hadds⟩ :=
      configure_pebble_spec i.relationBag
        { patched := (k8sStep i s).patched, usbMounted := (k8sStep i s).usbMounted,
          storageAttached := true, configFile := some (generate_ue_config i cfg),
          planServices := (k8sStep i s).planServices }
        i.relationCreated true
    exact ⟨hcfile, hsto⟩

theorem configure_reach_effects_of_match (i : CharmInputs) (s : CharmState) (cfg : CharmConfig)
    (hcfg : CharmConfig.from_charm i.rawConfig = .ok cfg)
    (hcc : i.canConnect = true)
    (hip : i.podIp.isNone = false)
    (hguard : rfsimGuardFails i = false)
    (hstorage : s.storageAttached = true)
    (hm : s.configFile = some (generate_ue_config i cfg)) :
    (configure i s).2.configWrites = 0 ∧ (configure i s).2.restarts = 0 := by
  obtain ⟨hst, hcf, hpl⟩ := k8sStep_preserves i s
  have hmk : config_file_content_matches (k8sStep i s) (generate_ue_config i cfg)
      = config_file_content_matches s (generate_ue_config i cfg) := by
    unfold config_file_content_matches
    rw [hcf]
  have hmT : config_file_content_matches s (generate_ue_config i cfg) = true :=
    (config_file_content_matches_iff s _).mpr hm
  rw [configure_reach i s cfg hcfg hcc hip hguard hstorage]
  obtain ⟨hplan, hcfile, hsto, hpat, husb, hres, hwr, hadds⟩ :=
    configure_pebble_spec i.relationBag (k8sStep i s) i.relationCreated false
  simp [hmk, hmT, hres, hwr]

/-- **C1.** Reconciliation is idempotent in its observable effects: running
`_configure` a second time, with configuration, relation data and on-disk
contents as left by the first run, performs no configuration-file write and
no process restart — the rendered content matches the on-disk content
byte-for-byte, so the write and the restart are both skipped. -/
theorem C1_configure_idempotent (i : CharmInputs) (s : CharmState) :
    (configure i ((configure i s).1)).2.configWrites = 0 ∧
    (configure i ((configure i s).1)).2.restarts = 0 := by
  rcases hcfg : CharmConfig.from_charm i.rawConfig with msg | cfg
  · simp [configure, hcfg, noEffects]
  · rcases hcc : i.canConnect with _ | _
    · simp [configure, hcfg, hcc, noEffects]
    · rcases hip : i.podIp with _ | ip
      · simp [configure, hcfg, hcc, hip, noEffects]
      · have hip' : i.podIp.isNone = false := by rw [hip]; rfl
        rcases hg : rfsimGuardFails i with _ | _
        · rcases hsto : s.storageAttached with _ | _
          · have h1 := (k8sStep_preserves i s).1
            have h2 := (k8sStep_preserves i (k8sStep i s)).1
            simp [configure, hcfg, hcc, hip, hg, h1, h2, hsto, noEffects]
          · obtain ⟨hfile, hsto2⟩ := configure_reach_state i s cfg hcfg hcc hip' hg hsto
            exact configure_reach_effects_of_match i ((configure i s).1) cfg
              hcfg hcc hip' hg hsto2 hfile
        · simp [configure, hcfg, hcc, hip, hg, noEffects]

theorem configure_reach_plan (i : CharmInputs) (s : CharmState) (cfg : CharmConfig)
    (hcfg : CharmConfig.from_charm i.rawConfig = .ok cfg)
    (hcc : i.canConnect = true)
    (hip : i.podIp.isNone = false)
    (hguard : rfsimGuardFails i = false)
    (hstorage : s.storageAttached = true) :
    ((configure i s).1).planServices =
      some (get_ue_pebble_layer i.relationBag i.relationCreated) := by
  rw [configure_reach i s cfg hcfg hcc hip hguard hstorage]
  by_cases hm : config_file_content_matches (k8sStep i s) (generate_ue_config i cfg) = true
  · obtain ⟨hplan, _⟩ :=
      configure_pebble_spec i.relationBag (k8sStep i s) i.relationCreated false
    simpa [hm] using hplan
  · simp only [hm, Bool.not_false, if_true, if_false, ite_true, ite_false,
      Bool.false_eq_true]
    obtain ⟨hplan, _⟩ :=
      configure_pebble_spec i.relationBag
        { patched := (k8sStep i s).patched, usbMounted := (k8sStep i s).usbMounted,
          storageAttached := (k8sStep i s).storageAttached,
          configFile := some (generate_ue_config i cfg),
          planServices := (k8sStep i s).planServices }
        i.relationCreated true
    exact hplan

/-- **C10.** Whenever the `fiveg_rfsim` relation is not created (the USB
path) and a reconciliation pass reaches process configuration, the supervised
process command line contains the literal string `"None"` as the value of
each RF parameter flag (`-r`, `--numerology`, `-C`, `--ssb`, `--band`):
every requirer RF property returns `None` without the relation and is
stringified unconditionally into the command. -/
theorem C10_no_relation_command_contains_none (i : CharmInputs) (s : CharmState)
    (cfg : CharmConfig)
    (hcfg : CharmConfig.from_charm i.rawConfig = .ok cfg)
    (hrel : i.relationCreated = false)
    (hcc : i.canConnect = true)
    (hip : i.podIp.isNone = false)
    (hstorage : s.storageAttached = true) :
    ∃ sd : ServiceDef, ((configure i s).1).planServices = some sd ∧
      sd.command = String.intercalate " "
        ["/opt/oai-gnb/bin/nr-uesoftmodem", "-O", "/tmp/conf/ue.conf",
         "-r", "None", "--numerology", "None", "-C", "None", "--ssb", "None",
         "--band", "None", "-E", "--log_config.global_log_options",
         "level,nocolor,time"] ∧
      sd.command = "/opt/oai-gnb/bin/nr-uesoftmodem -O /tmp/conf/ue.conf -r None --numerology None -C None --ssb None --band None -E --log_config.global_log_options level,nocolor,time" := by
  have hguard : rfsimGuardFails i = false := by simp [rfsimGuardFails, hrel]
  have hbag : i.relationBag = none := by simp [CharmInputs.relationBag, hrel]
  refine ⟨get_ue_pebble_layer i.relationBag i.relationCreated,
    configure_reach_plan i s cfg hcfg hcc hip hguard hstorage, ?_, ?_⟩
  · rw [hbag, hrel]
    rfl
  · rw [hbag, hrel]
    rfl

/-- Witness for C10 at a concrete input. -/
theorem C10_no_relation_command_contains_none_witness :
    ∃ sd : ServiceDef,
      ((configure
        { rawConfig := ⟨none, none, none, none, some 1, none⟩, canConnect := true,
          podIp := some "1.2.3.4", relationCreated := false, remoteAppData := none }
        { patched := true, usbMounted := true, storageAttached := true,
          configFile := none, planServices := none }).1).planServices = some sd ∧
      sd.command = String.intercalate " "
        ["/opt/oai-gnb/bin/nr-uesoftmodem", "-O", "/tmp/conf/ue.conf",
         "-r", "None", "--numerology", "None", "-C", "None", "--ssb", "None",
         "--band", "None", "-E", "--log_config.global_log_options",
         "level,nocolor,time"] ∧
      sd.command = "/opt/oai-gnb/bin/nr-uesoftmodem -O /tmp/conf/ue.conf -r None --numerology None -C None --ssb None --band None -E --log_config.global_log_options level,nocolor,time" :=
  C10_no_relation_command_contains_none
    { rawConfig := ⟨none, none, none, none, some 1, none⟩, canConnect := true,
      podIp := some "1.2.3.4", relationCreated := false, remoteAppData := none }
    { patched := true, usbMounted := true, storageAttached := true,
      configFile := none, planServices := none }
    { imsi := UEConfig.imsiDefault, key := UEConfig.keyDefault,
      opc := UEConfig.opcDefault, dnn := UEConfig.dnnDefault,
      sst := 1, sd := UEConfig.sdDefault }
    rfl rfl rfl rfl rfl

/-- Counterexample to C3 as stated: for a leader unit with valid
configuration, reachable container and available pod IP, with the storage
path not attached AND the statefulset not patched, the code reports the
patch Waiting status — the patch check (line 101) runs before the storage
check (line 143), contrary to the spec ladder which lists storage as check 5
and the patch as check 6. -/
theorem C3_storage_vs_patch_counterexample :
    collect_unit_status true
      { rawConfig := ⟨none, none, none, none, some 1, none⟩, canConnect := true,
        podIp := some "1.2.3.4", relationCreated := false, remoteAppData := none }
      { patched := false, usbMounted := true, storageAttached := false,
        configFile := none, planServices := none }
      = .waiting "Waiting for statefulset to be patched" ∧
    collect_unit_status true
      { rawConfig := ⟨none, none, none, none, some 1, none⟩, canConnect := true,
        podIp := some "1.2.3.4", relationCreated := false, remoteAppData := none }
      { patched := false, usbMounted := true, storageAttached := false,
        configFile := none, planServices := none }
      ≠ .waiting "Waiting for storage to be attached" := by
  constructor
  · rfl
  · decide

/-- **C3 (amended).** The status evaluation applies its checks in the source
order with the first failing check winning; the statefulset-patch check
precedes the storage check.  For a leader unit with valid configuration, a
reachable container and an available pod IP, when the statefulset is not yet
patched the reported status is the patch Waiting status — also when the
persistent storage path is not attached. -/
theorem C3_patch_check_precedes_storage (i : CharmInputs) (s : CharmState)
    (cfg : CharmConfig)
    (hcfg : CharmConfig.from_charm i.rawConfig = .ok cfg)
    (hcc : i.canConnect = true)
    (hip : i.podIp.isNone = false)
    (hpatch : s.patched = false) :
    collect_unit_status true i s = .waiting "Waiting for statefulset to be patched" := by
  simp [collect_unit_status, hcfg, hcc, hip, hpatch]

/-- Witness for the amended C3 at the counterexample input (storage not
attached and statefulset not patched). -/
theorem C3_patch_check_precedes_storage_witness :
    collect_unit_status true
      { rawConfig := ⟨none, none, none, none, some 1, none⟩, canConnect := true,
        podIp := some "1.2.3.4", relationCreated := false, remoteAppData := none }
      { patched := false, usbMounted := false, storageAttached := false,
        configFile := none, planServices := none }
      = .waiting "Waiting for statefulset to be patched" :=
  C3_patch_check_precedes_storage
    { rawConfig := ⟨none, none, none, none, some 1, none⟩, canConnect := true,
      podIp := some "1.2.3.4", relationCreated := false, remoteAppData := none }
    { patched := false, usbMounted := false, storageAttached := false,
      configFile := none, planServices := none }
    { imsi := UEConfig.imsiDefault, key := UEConfig.keyDefault,
      opc := UEConfig.opcDefault, dnn := UEConfig.dnnDefault,
      sst := 1, sd := UEConfig.sdDefault }
    rfl rfl rfl rfl

/-- **C7** (evaluation at the failing inputs).  The status check guarding
"Waiting for RFSIM information" is `all([...])` over Python truthiness, which
treats the optional `sd` as required and zero values (including the provider
interface version `0 = LIBAPI`) as missing.  First conjunct: a provider
databag with every required field published, correct version `"0"`, and the
optional `sd` omitted is reported as Waiting-for-RFSIM-information.  Second
conjunct: even a fully complete databag (optional `sd` included) with the
matching version `"0"` is reported as Waiting-for-RFSIM-information, so with
the current `LIBAPI = 0` this check can never pass and the rfsim path can
never reach Active. -/
theorem C7_truthiness_check_failing_input :
    collect_unit_status true
      { rawConfig := ⟨none, none, none, none, some 1, none⟩, canConnect := true,
        podIp := some "1.2.3.4", relationCreated := true,
        remoteAppData := some
          { version := some "0", rfsim_address := some "1.1.1.1", sst := some "1",
            sd := none, band := some "77", dl_freq := some "3924060000",
            carrier_bandwidth := some "106", numerology := some "1",
            start_subcarrier := some "529" } }
      { patched := true, usbMounted := false, storageAttached := true,
        configFile := none, planServices := none }
      = .waiting "Waiting for RFSIM information" ∧
    collect_unit_status true
      { rawConfig := ⟨none, none, none, none, some 1, none⟩, canConnect := true,
        podIp := some "1.2.3.4", relationCreated := true,
        remoteAppData := some
          { version := some "0", rfsim_address := some "1.1.1.1", sst := some "1",
            sd := some "12555", band := some "77", dl_freq := some "3924060000",
            carrier_bandwidth := some "106", numerology := some "1",
            start_subcarrier := some "529" } }
      { patched := true, usbMounted := false, storageAttached := true,
        configFile := none, planServices := none }
      = .waiting "Waiting for RFSIM information" := by
  constructor
  · rfl
  · rfl

theorem hexDigitChar_mem {m : Nat} (h : m < 16) :
    hexDigitChar m ∈ ("0123456789abcdef").toList := by
  interval_cases m <;> decide

theorem natHexCharsAux_lower :
    ∀ fuel n, n < fuel → ∀ c ∈ natHexCharsAux fuel n, c ∈ ("0123456789abcdef").toList := by
  intro fuel
  induction fuel with
  | zero => intro n h; omega
  | succ fuel ih =>
    intro n h c hc
    rw [natHexCharsAux] at hc
    by_cases h16 : n < 16
    · simp only [if_pos h16, List.mem_singleton] at hc
      subst hc
      exact hexDigitChar_mem h16
    · simp only [if_neg h16, List.mem_append, List.mem_singleton] at hc
      rcases hc with hc | hc
      · have hrec : n / 16 < fuel := by
          have := Nat.div_lt_self (show 0 < n by omega) (show 1 < 16 by omega)
          omega
        exact ih (n / 16) hrec c hc
      · subst hc
        exact hexDigitChar_mem (Nat.mod_lt n (by omega))

/-- **C9.** `get_sd_as_hex` is a total function on optional integers: it maps
`none` to the literal sentinel `"0xffffff"`, and a present value to Python
`hex` — for every natural argument the `0x`-prefixed string over the
lowercase hexadecimal digit alphabet; in particular `18 ↦ "0x12"` and
`12555 ↦ "0x310b"`. -/
theorem C9_get_sd_as_hex_spec :
    get_sd_as_hex none = "0xffffff" ∧
    (∀ n : Nat, get_sd_as_hex (some (n : Int)) = "0x" ++ natHexRepr n) ∧
    (∀ n : Nat, ∀ c ∈ natHexChars n, c ∈ ("0123456789abcdef").toList) ∧
    get_sd_as_hex (some 18) = "0x12" ∧
    get_sd_as_hex (some 12555) = "0x310b" := by
  refine ⟨rfl, ?_, ?_, rfl, rfl⟩
  · intro n
    have hnn : ¬((n : Int) < 0) := by omega
    simp [get_sd_as_hex, pyHex, hnn]
  · intro n
    exact natHexCharsAux_lower (n + 1) n (Nat.lt_succ_self n)

/-- Witness for C9: the digit characters of `hex(12555)` are drawn from the
lowercase hexadecimal alphabet. -/
theorem C9_get_sd_as_hex_spec_witness :
    'b' ∈ ("0123456789abcdef").toList :=
  C9_get_sd_as_hex_spec.2.2.1 12555 'b' (by decide)

/-! ## `src/k8s.py` (`K8sUSBVolume`) -/

structure VolumeMount where
  name : String
  mountPath : String
deriving DecidableEq, Repr

structure HostPathVolumeSource where
  path : String
  sourceType : String
deriving DecidableEq, Repr

structure Volume where
  name : String
  hostPath : Option HostPathVolumeSource
deriving DecidableEq, Repr

/-- One container of the statefulset pod template, restricted to the fields
`K8sUSBVolume` reads and writes.  `volumeMounts` distinguishes an absent list
(`None`) from an empty one. -/
structure K8sContainer where
  name : String
  volumeMounts : Option (List VolumeMount)
deriving DecidableEq, Repr

/-- `statefulset.spec.template.spec`, restricted to what `K8sUSBVolume`
touches. -/
structure PodSpec where
  containers : List K8sContainer
  volumes : Option (List Volume)
deriving DecidableEq, Repr

def USB_MOUNT_PATH : String := "/dev/bus/usb"

/-- `self.usb_volume = Volume(name="usb", hostPath=HostPathVolumeSource(path=..., type=""))`. -/
def usb_volume : Volume := { name := "usb", hostPath := some ⟨USB_MOUNT_PATH, ""⟩ }

/-- `self.usb_volumemount = VolumeMount(name="usb", mountPath=...)`. -/
def usb_volumemount : VolumeMount := { name := "usb", mountPath := USB_MOUNT_PATH }

/-- `_get_container`: the first container with the given name; `K8sError`
when absent. -/
def get_container (containerName : String) (containers : List K8sContainer) :
    Except String K8sContainer :=
  match containers.find? (fun c => c.name == containerName) with
  | some c => .ok c
  | none => .error ("Container " ++ containerName ++ " not found")

/-- In-place mutation of the container found by `_get_container`: replace the
first container with the given name. -/
def set_mounts_at_first : List K8sContainer → String → Option (List VolumeMount) →
    List K8sContainer
  | [], _, _ => []
  | c :: rest, nm, vm =>
    if c.name == nm then { c with volumeMounts := vm } :: rest
    else c :: set_mounts_at_first rest nm vm

/-- `if not xs: xs = [x] else: xs.append(x)` on an optional list (Python
truthiness: `None` and `[]` both replaced). -/
def pyAppendTruthy (o : Option (List α)) (x : α) : List α :=
  match o with
  | none => [x]
  | some l => if l.isEmpty then [x] else l ++ [x]

/-- `K8sUSBVolume.is_mounted`: the container volume-mount entry AND the
spec-level volume entry must both be present; an absent or empty list is not
mounted.  `K8sError` when the named container cannot be found. -/
def is_mounted (containerName : String) (spec : PodSpec) : Except String Bool := do
  let c ← get_container containerName spec.containers
  let hasVm : Bool :=
    match c.volumeMounts with
    | none => false
    | some l => l.contains usb_volumemount
  let hasVol : Bool :=
    match spec.volumes with
    | none => false
    | some l => l.contains usb_volume
  return hasVm && hasVol

/-- `K8sUSBVolume.mount`: append the USB volume-mount entry on the named
container and the USB volume entry at the spec level (unconditionally — the
method itself performs no already-mounted check). -/
def mount (containerName : String) (spec : PodSpec) : Except String PodSpec := do
  let c ← get_container containerName spec.containers
  return { containers := set_mounts_at_first spec.containers containerName
             (some (pyAppendTruthy c.volumeMounts usb_volumemount)),
           volumes := some (pyAppendTruthy spec.volumes usb_volume) }

/-- `K8sUSBVolume.unmount`: keep only entries whose name differs from
`"usb"`; iterating an absent (`None`) list raises `TypeError`. -/
def unmount (containerName : String) (spec : PodSpec) : Except String PodSpec := do
  let c ← get_container containerName spec.containers
  match c.volumeMounts with
  | none => .error "TypeError: NoneType is not iterable"
  | some l =>
    match spec.volumes with
    | none => .error "TypeError: NoneType is not iterable"
    | some vl =>
      return { containers := set_mounts_at_first spec.containers containerName
                 (some (l.filter (fun vm => !(vm.name == usb_volumemount.name)))),
               volumes := some (vl.filter (fun v => !(v.name == usb_volume.name))) }

theorem pyAppendTruthy_eq (o : Option (List α)) (x : α) :
    pyAppendTruthy o x = o.getD [] ++ [x] := by
  rcases o with _ | l
  · rfl
  · rcases l with _ | ⟨a, t⟩ <;> simp [pyAppendTruthy]

theorem get_container_split (cn : String) :
    ∀ (cs : List K8sContainer) (c : K8sContainer), get_container cn cs = .ok c →
      ∃ pre post, cs = pre ++ c :: post ∧ (∀ d ∈ pre, ¬ d.name = cn) ∧
        ∀ vm, set_mounts_at_first cs cn vm = pre ++ { c with volumeMounts := vm } :: post := by
  intro cs
  induction cs with
  | nil => intro c hc; exact absurd hc (by simp [get_container])
  | cons d rest ih =>
    intro c hc
    by_cases hd : d.name = cn
    · have hceq : c = d := by
        unfold get_container at hc
        simp [List.find?, hd] at hc
        exact hc.symm
      subst hceq
      refine ⟨[], rest, rfl, by simp, ?_⟩
      intro vm
      unfold set_mounts_at_first
      simp [hd]
    · have hc' : get_container cn rest = .ok c := by
        unfold get_container at hc ⊢
        have hbeq : (d.name == cn) = false := by simp [hd]
        simp only [List.find?, hbeq] at hc
        exact hc
      obtain ⟨pre, post, hsplit, hpre, hset⟩ := ih c hc'
      refine ⟨d :: pre, post, by simp [hsplit], ?_, ?_⟩
      · intro e he
        rcases List.mem_cons.mp he with rfl | he
        · exact hd
        · exact hpre e he
      · intro vm
        unfold set_mounts_at_first
        have hbeq : (d.name == cn) = false := by simp [hd]
        simp [hbeq, hset vm]

/-- Counterexample to C8 as stated: on a pod spec already in the mounted
target state, `mount` appends duplicate `"usb"` entries instead of leaving
the object unchanged — it is an unconditional append, idempotent only through
the caller's `is_mounted` guard.  Also, `unmount` on an object already in the
unmounted target state whose `volumeMounts` list is absent (`None`) raises a
`TypeError` instead of leaving the object unchanged. -/
theorem C8_mount_already_mounted_counterexample :
    is_mounted "ue" ⟨[⟨"ue", some [usb_volumemount]⟩], some [usb_volume]⟩ = .ok true ∧
    mount "ue" ⟨[⟨"ue", some [usb_volumemount]⟩], some [usb_volume]⟩ =
      .ok ⟨[⟨"ue", some [usb_volumemount, usb_volumemount]⟩],
           some [usb_volume, usb_volume]⟩ ∧
    (⟨[⟨"ue", some [usb_volumemount, usb_volumemount]⟩],
      some [usb_volume, usb_volume]⟩ : PodSpec) ≠
      ⟨[⟨"ue", some [usb_volumemount]⟩], some [usb_volume]⟩ ∧
    unmount "ue" ⟨[⟨"ue", none⟩], some []⟩ =
      .error "TypeError: NoneType is not iterable" := by
  refine ⟨rfl, rfl, by decide, rfl⟩

/-- **C8 (amended).** The USB mount and unmount operations are
frame-preserving: `mount` appends exactly the one USB volume entry at the
spec level and the one USB volume-mount entry on the first container with
the given name, leaving every pre-existing volume, volume-mount, and other
container unchanged; `unmount` (defined when both lists are present) removes
exactly the entries named `"usb"` and leaves everything else unchanged, and
is idempotent: on an object already without `"usb"` entries (lists present)
it returns the object unchanged.  `mount`, however, is an unconditional
append: repeated on an already-mounted object it adds duplicate entries
(idempotence of mounting holds only via the caller's `is_mounted` guard). -/
theorem C8_usb_mount_unmount_frame (cn : String) (spec : PodSpec) (c : K8sContainer)
    (hc : get_container cn spec.containers = .ok c) :
    ∃ pre post,
      spec.containers = pre ++ c :: post ∧ (∀ d ∈ pre, ¬ d.name = cn) ∧
      mount cn spec = .ok
        { containers := pre ++
            { c with volumeMounts := some (c.volumeMounts.getD [] ++ [usb_volumemount]) } :: post,
          volumes := some (spec.volumes.getD [] ++ [usb_volume]) } ∧
      (∀ l vl, c.volumeMounts = some l → spec.volumes = some vl →
        unmount cn spec = .ok
          { containers := pre ++
              { c with volumeMounts := some (l.filter (fun vm => !(vm.name == usb_volumemount.name))) } :: post,
            volumes := some (vl.filter (fun v => !(v.name == usb_volume.name))) }) ∧
      (∀ l vl, c.volumeMounts = some l → spec.volumes = some vl →
        (∀ vm ∈ l, ¬ vm.name = "usb") → (∀ v ∈ vl, ¬ v.name = "usb") →
        unmount cn spec = .ok spec) := by
  obtain ⟨pre, post, hsplit, hpre, hset⟩ := get_container_split cn spec.containers c hc
  refine ⟨pre, post, hsplit, hpre, ?_, ?_, ?_⟩
  · unfold mount
    rw [hc]
    simp only [bind, Except.bind, pure, Except.pure]
    rw [pyAppendTruthy_eq, pyAppendTruthy_eq, hset]
  · intro l vl hl hvl
    unfold unmount
    rw [hc]
    simp only [bind, Except.bind, pure, Except.pure, hl, hvl]
    rw [hset]
  · intro l vl hl hvl hnol hnovl
    have hfl : l.filter (fun vm => !(vm.name == usb_volumemount.name)) = l := by
      apply List.filter_eq_self.mpr
      intro vm hvm
      simp [usb_volumemount, hnol vm hvm]
    have hfvl : vl.filter (fun v => !(v.name == usb_volume.name)) = vl := by
      apply List.filter_eq_self.mpr
      intro v hv
      simp [usb_volume, hnovl v hv]
    unfold unmount
    rw [hc]
    simp only [bind, Except.bind, pure, Except.pure, hl, hvl]
    rw [hset, hfl, hfvl]
    have hcl : ({ c with volumeMounts := some l } : K8sContainer) = c := by
      rcases c with ⟨nm, vms⟩
      simp_all
    rw [hcl, ← hsplit, ← hvl]

/-- Witness for the amended C8 at a concrete one-container pod spec carrying
a pre-existing volume and volume-mount named `"config"`. -/
theorem C8_usb_mount_unmount_frame_witness :
    ∃ pre post,
      ([⟨"ue", some [⟨"config", "/tmp/conf"⟩]⟩] : List K8sContainer) =
        pre ++ (⟨"ue", some [⟨"config", "/tmp/conf"⟩]⟩ : K8sContainer) :: post ∧
      (∀ d ∈ pre, ¬ d.name = "ue") ∧
      mount "ue" ⟨[⟨"ue", some [⟨"config", "/tmp/conf"⟩]⟩], some [⟨"config", none⟩]⟩ = .ok
        { containers := pre ++
            { (⟨"ue", some [⟨"config", "/tmp/conf"⟩]⟩ : K8sContainer) with volumeMounts := some ((some [(⟨"config", "/tmp/conf"⟩ : VolumeMount)]).getD [] ++ [usb_volumemount]) } :: post,
          volumes := some ((some [(⟨"config", none⟩ : Volume)]).getD [] ++ [usb_volume]) } ∧
      (∀ l vl, (some [(⟨"config", "/tmp/conf"⟩ : VolumeMount)] : Option (List VolumeMount)) = some l →
        (some [(⟨"config", none⟩ : Volume)] : Option (List Volume)) = some vl →
        unmount "ue" ⟨[⟨"ue", some [⟨"config", "/tmp/conf"⟩]⟩], some [⟨"config", none⟩]⟩ = .ok
          { containers := pre ++
              { (⟨"ue", some [⟨"config", "/tmp/conf"⟩]⟩ : K8sContainer) with volumeMounts := some (l.filter (fun vm => !(vm.name == usb_volumemount.name))) } :: post,
            volumes := some (vl.filter (fun v => !(v.name == usb_volume.name))) }) ∧
      (∀ l vl, (some [(⟨"config", "/tmp/conf"⟩ : VolumeMount)] : Option (List VolumeMount)) = some l →
        (some [(⟨"config", none⟩ : Volume)] : Option (List Volume)) = some vl →
        (∀ vm ∈ l, ¬ vm.name = "usb") → (∀ v ∈ vl, ¬ v.name = "usb") →
        unmount "ue" ⟨[⟨"ue", some [⟨"config", "/tmp/conf"⟩]⟩], some [⟨"config", none⟩]⟩ =
          .ok ⟨[⟨"ue", some [⟨"config", "/tmp/conf"⟩]⟩], some [⟨"config", none⟩]⟩) :=
  C8_usb_mount_unmount_frame "ue"
    ⟨[⟨"ue", some [⟨"config", "/tmp/conf"⟩]⟩], some [⟨"config", none⟩]⟩
    ⟨"ue", some [⟨"config", "/tmp/conf"⟩]⟩ rfl
